import Mathlib

/-!
Shallow embedding of the OPC UA demo server core (src/main.py):
the four value generators (toggle_data, periodic_data, random_data,
cyclic_data), the mirror subscription handler
(MirrorHandler.datachange_notification), the TCX feed adapter callback
(TCXUpdateHandler.on_update), and the startup calls issued by main
(variable creation and historization registration).

Python floats are embedded as rationals (all constants appearing in the
program, such as 0.5, 18.5 or 60.2, are handled exactly); asyncio timing
is abstracted away: each generator is modelled by the sequence of values
it writes, indexed by iteration number.  The stream of draws produced by
random.uniform(min, max) is modelled as an arbitrary sequence of
rationals lying in [min, max].
-/

namespace OpcuaDemo

/-- Runtime values relevant to the demo: booleans, doubles and strings
(the three OPC UA datatypes declared in main). -/
inductive UaVal where
  | vBool (b : Bool)
  | vDouble (q : ℚ)
  | vString (s : String)
  deriving DecidableEq

/-- isinstance(val, bool) of the Python code. -/
def UaVal.isBool : UaVal → Bool
  | .vBool _ => true
  | _ => false

/-- An observable effect of a handler: a write to a variable, or an
error-level log record. -/
inductive Effect (V : Type) where
  | write (target : V) (val : UaVal)
  | logError (msg : String)
  deriving DecidableEq

/-! ## Generators (main.py lines 57-95) -/

/-- toggle_data (main.py 57-62): value = init; loop: write value,
sleep, value = not value.  `toggle_data init n` is the n-th value
written. -/
def toggle_data (init : Bool) : ℕ → Bool
  | 0 => init
  | n + 1 => ! toggle_data init n

/-- periodic_data (main.py 65-70): value = init; loop: write value,
sleep, value += increment.  `periodic_data init increment n` is the n-th
value written. -/
def periodic_data (init increment : ℚ) : ℕ → ℚ
  | 0 => init
  | n + 1 => periodic_data init increment n + increment

/-- Python round(q, 2): round to 2 decimal places. -/
def pyround2 (q : ℚ) : ℚ := (round (q * 100) : ℚ) / 100

/-- random_data (main.py 73-79): value = init; loop: write value, sleep,
value = round(random.uniform(min, max), 2).  The stream of uniform draws
is modelled by `u`; `random_data u init n` is the n-th value written. -/
def random_data (u : ℕ → ℚ) (init : ℚ) : ℕ → ℚ
  | 0 => init
  | n + 1 => pyround2 (u n)

/-- Simulation state of cyclic_data (main.py 82-95): the running value
and the current direction flag. -/
structure CycState where
  value : ℚ
  increasing : Bool
  deriving DecidableEq

/-- One loop iteration of cyclic_data after the write: if value >= max
the direction becomes descending, then if value <= min it becomes
ascending, and the value advances by step in the current direction. -/
def cyclic_step (step mn mx : ℚ) (s : CycState) : CycState :=
  let inc1 := if s.value ≥ mx then false else s.increasing
  let inc2 := if s.value ≤ mn then true else inc1
  ⟨if inc2 then s.value + step else s.value - step, inc2⟩

/-- cyclic_data (main.py 82-95), as the sequence of loop states: the
initial state is (init, increasing); `(cyclic_data step mn mx init n).value`
is the n-th value written (the written `ua.Double(value)` carries the
same numeric value). -/
def cyclic_data (step mn mx init : ℚ) : ℕ → CycState
  | 0 => ⟨init, true⟩
  | n + 1 => cyclic_step step mn mx (cyclic_data step mn mx init n)

/-- Python division, raising ZeroDivisionError on a zero divisor. -/
def pydiv (a b : ℚ) : Except String ℚ :=
  if b = 0 then .error "ZeroDivisionError" else .ok (a / b)

/-- The per-step interval computation performed by cyclic_data before
its loop (main.py 84-86): spi = (max - min) / step, refresh =
cycle_time / spi; either division can raise ZeroDivisionError. -/
def cyclic_refresh (cycle_time step mn mx : ℚ) : Except String ℚ :=
  match pydiv (mx - mn) step with
  | .error e => .error e
  | .ok spi => pydiv cycle_time spi

/-- A run of cyclic_data observed for n iterations: the interval
computation happens before the first write, so if it raises, the error
propagates and no value is ever written; otherwise the run produces the
first n written values. -/
def cyclic_run (cycle_time step mn mx init : ℚ) (n : ℕ) :
    Except String (List ℚ) :=
  match cyclic_refresh cycle_time step mn mx with
  | .error e => .error e
  | .ok _ => .ok ((List.range n).map fun m => (cyclic_data step mn mx init m).value)

/-! ## Mirror Engine (MirrorHandler.datachange_notification, main.py 27-32) -/

/-- MirrorHandler.datachange_notification (main.py 27-32): on a data
change event for `node` carrying `val`, if the node is the original
variable then: a non-boolean value is logged as an error and dropped,
a boolean value is written to the copy variable; events for other nodes
are ignored.  The result is the list of effects performed. -/
def datachange_notification {V : Type} [DecidableEq V]
    (orig copy : V) (node : V) (val : UaVal) : List (Effect V) :=
  if orig = node then
    match val with
    | .vBool b => [.write copy (.vBool b)]
    | _ => [.logError "Node value is not boolean"]
  else []

/-! ### Claim theorems for the toggle and ramp generators -/

/-- Claim C2: for the toggle generator started with initial value init,
the n-th value written equals init XOR (n mod 2 == 1): the sequence is
v0 = init, v1 = not v0, v2 = not v1, and so on, unbounded. -/
theorem C2_toggle_sequence (init : Bool) (n : ℕ) :
    toggle_data init n = xor init (decide (n % 2 = 1)) := by
  induction n with
  | zero => cases init <;> rfl
  | succ n ih =>
      rw [toggle_data, ih]
      rcases Nat.even_or_odd n with h | h
      · have h1 : n % 2 = 0 := Nat.even_iff.mp h
        have h2 : (n + 1) % 2 = 1 := by omega
        rw [h1, h2]
        cases init <;> rfl
      · have h1 : n % 2 = 1 := Nat.odd_iff.mp h
        have h2 : (n + 1) % 2 = 0 := by omega
        rw [h1, h2]
        cases init <;> rfl

/-- Claim C6: for the linear ramp generator with increment = -2 and
init = 0 (the NegativeTrendData task of main), the n-th value written
equals -2 * n, with no lower bound and no clamping. -/
theorem C6_negative_ramp (n : ℕ) :
    periodic_data 0 (-2) n = -2 * (n : ℚ) := by
  induction n with
  | zero => simp [periodic_data]
  | succ n ih =>
      rw [periodic_data, ih]
      push_cast
      ring

/-- Claim C1: for every invocation of the mirror change-notification
handler with a node identity and a value, a write to the copy variable
occurs if and only if the node equals the original variable and the
value is boolean, in which case the written value is exactly the
notified value; and an error is logged if and only if the node equals
the original variable and the value is not boolean (in which case no
write occurs). -/
theorem C1_mirror_notification (orig copy node : ℕ) (val : UaVal) :
    (∀ t v, Effect.write t v ∈ datachange_notification orig copy node val ↔
      (node = orig ∧ val.isBool = true ∧ t = copy ∧ v = val)) ∧
    (∀ m, Effect.logError m ∈ datachange_notification orig copy node val ↔
      (node = orig ∧ val.isBool = false ∧ m = "Node value is not boolean")) := by
  unfold datachange_notification
  by_cases h : orig = node
  · subst h
    cases val <;> simp [UaVal.isBool]
  · constructor
    · intro t v
      simp only [if_neg h, List.not_mem_nil, false_iff]
      rintro ⟨h1, -⟩
      exact h h1.symm
    · intro m
      simp only [if_neg h, List.not_mem_nil, false_iff]
      rintro ⟨h1, -⟩
      exact h h1.symm

/-! ### Lemmas and claim theorems for the triangular wave generator -/

/-- The direction flag produced by one cyclic_data iteration, written
out. -/
theorem cyclic_step_inc (step mn mx : ℚ) (s : CycState) :
    (cyclic_step step mn mx s).increasing =
      if s.value ≤ mn then true
      else if s.value ≥ mx then false
      else s.increasing := rfl

/-- The value produced by one cyclic_data iteration advances by step in
the direction the iteration selected. -/
theorem cyclic_step_value (step mn mx : ℚ) (s : CycState) :
    (cyclic_step step mn mx s).value =
      if (cyclic_step step mn mx s).increasing = true
      then s.value + step else s.value - step := by
  unfold cyclic_step
  by_cases h1 : s.value ≤ mn <;> by_cases h2 : s.value ≥ mx <;>
    simp [h1, h2]

/-- Unfolding lemma for one iteration of the cyclic generator. -/
theorem cyclic_data_succ (step mn mx init : ℚ) (n : ℕ) :
    cyclic_data step mn mx init (n + 1) =
      cyclic_step step mn mx (cyclic_data step mn mx init n) := rfl

/-- With the parameters of main (step 1/2, bounds -100 and 100), one
iteration preserves the invariant that the value is k/2 for an integer
k between -200 and 200. -/
theorem cyclic_step_inv {k : ℤ} (hk1 : -200 ≤ k) (hk2 : k ≤ 200)
    (inc : Bool) :
    ∃ k' : ℤ, -200 ≤ k' ∧ k' ≤ 200 ∧
      (cyclic_step (1 / 2) (-100) 100 ⟨(k : ℚ) / 2, inc⟩).value = (k' : ℚ) / 2 := by
  have hval := cyclic_step_value (1 / 2) (-100) 100 ⟨(k : ℚ) / 2, inc⟩
  have hinc := cyclic_step_inc (1 / 2) (-100) 100 ⟨(k : ℚ) / 2, inc⟩
  cases hd : (cyclic_step (1 / 2) (-100) 100 ⟨(k : ℚ) / 2, inc⟩).increasing
  · -- descending: the iteration cannot have seen value ≤ -100
    have hgt : -200 < k := by
      rw [hd] at hinc
      split_ifs at hinc with h1 h2
      all_goals
        have h3 : (-100 : ℚ) < (k : ℚ) / 2 := lt_of_not_le h1
        have h4 : (-200 : ℚ) < (k : ℚ) := by linarith
        exact_mod_cast h4
    refine ⟨k - 1, by omega, by omega, ?_⟩
    rw [hval, hd]
    push_cast
    norm_num
    ring
  · -- ascending: the iteration saw value ≤ -100 or value < 100
    have hlt : k ≤ -200 ∨ k < 200 := by
      rw [hd] at hinc
      split_ifs at hinc with h1 h2
      · left
        have h3 : (k : ℚ) / 2 ≤ -100 := h1
        have h4 : (k : ℚ) ≤ -200 := by linarith
        exact_mod_cast h4
      · right
        have h3 : (k : ℚ) / 2 < 100 := lt_of_not_le h2
        have h4 : (k : ℚ) < 200 := by linarith
        exact_mod_cast h4
    refine ⟨k + 1, by omega, by omega, ?_⟩
    rw [hval, hd]
    push_cast
    norm_num
    ring

/-- With the parameters of main, every state of the cyclic generator
has value k/2 for an integer k between -200 and 200. -/
theorem cyclic_inv (n : ℕ) :
    ∃ k : ℤ, -200 ≤ k ∧ k ≤ 200 ∧
      (cyclic_data (1 / 2) (-100) 100 0 n).value = (k : ℚ) / 2 := by
  induction n with
  | zero => exact ⟨0, by norm_num, by norm_num, by norm_num [cyclic_data]⟩
  | succ n ih =>
      obtain ⟨k, h1, h2, hv⟩ := ih
      have hs : cyclic_data (1 / 2) (-100) 100 0 n =
          ⟨(k : ℚ) / 2, (cyclic_data (1 / 2) (-100) 100 0 n).increasing⟩ := by
        cases h : cyclic_data (1 / 2) (-100) 100 0 n
        rw [h] at hv
        simp_all
      obtain ⟨k', h1', h2', hv'⟩ :=
        cyclic_step_inv h1 h2 (cyclic_data (1 / 2) (-100) 100 0 n).increasing
      refine ⟨k', h1', h2', ?_⟩
      rw [cyclic_data_succ, hs]
      exact hv'

/-- Claim C3: for the triangular wave generator with min = -100,
max = 100, step = 1/2, init = 0 (the CyclicData task of main): every
written value lies in [-100 - step, 100 + step]; while the direction is
ascending consecutive writes increase by step and while descending they
decrease by step; the direction only switches to descending after a
write of a value >= 100 and only switches back to ascending after a
write of a value <= -100, so the wave alternates forever. -/
theorem C3_cyclic_wave (n : ℕ) :
    (-100 - 1 / 2 ≤ (cyclic_data (1 / 2) (-100) 100 0 n).value ∧
      (cyclic_data (1 / 2) (-100) 100 0 n).value ≤ 100 + 1 / 2) ∧
    ((cyclic_data (1 / 2) (-100) 100 0 (n + 1)).increasing = true →
      (cyclic_data (1 / 2) (-100) 100 0 (n + 1)).value =
        (cyclic_data (1 / 2) (-100) 100 0 n).value + 1 / 2) ∧
    ((cyclic_data (1 / 2) (-100) 100 0 (n + 1)).increasing = false →
      (cyclic_data (1 / 2) (-100) 100 0 (n + 1)).value =
        (cyclic_data (1 / 2) (-100) 100 0 n).value - 1 / 2) ∧
    ((cyclic_data (1 / 2) (-100) 100 0 n).increasing = true →
      (cyclic_data (1 / 2) (-100) 100 0 (n + 1)).increasing = false →
      100 ≤ (cyclic_data (1 / 2) (-100) 100 0 n).value) ∧
    ((cyclic_data (1 / 2) (-100) 100 0 n).increasing = false →
      (cyclic_data (1 / 2) (-100) 100 0 (n + 1)).increasing = true →
      (cyclic_data (1 / 2) (-100) 100 0 n).value ≤ -100) := by
  obtain ⟨k, h1, h2, hv⟩ := cyclic_inv n
  refine ⟨⟨?_, ?_⟩, ?_, ?_, ?_, ?_⟩
  · rw [hv]
    have : (-200 : ℚ) ≤ (k : ℚ) := by exact_mod_cast h1
    linarith
  · rw [hv]
    have : (k : ℚ) ≤ 200 := by exact_mod_cast h2
    linarith
  · intro h
    rw [cyclic_data_succ] at h ⊢
    rw [cyclic_step_value, h]
    simp
  · intro h
    rw [cyclic_data_succ] at h ⊢
    rw [cyclic_step_value, h]
    simp
  · intro ha hb
    rw [cyclic_data_succ, cyclic_step_inc] at hb
    split_ifs at hb with hc hd
    · exact hd
    · rw [ha] at hb
      exact absurd hb (by simp)
  · intro ha hb
    rw [cyclic_data_succ, cyclic_step_inc] at hb
    split_ifs at hb with hc hd
    · exact hc
    · rw [ha] at hb
      exact absurd hb (by simp)

/-- Witness for C3 at n = 0: the first step of the wave is ascending
and writes 0 then 1/2. -/
theorem C3_cyclic_wave_witness :
    (cyclic_data (1 / 2) (-100) 100 0 1).increasing = true ∧
    (cyclic_data (1 / 2) (-100) 100 0 1).value =
      (cyclic_data (1 / 2) (-100) 100 0 0).value + 1 / 2 :=
  ⟨by decide, (C3_cyclic_wave 0).2.1 (by decide)⟩

/-- Claim C10: the interval computation of cyclic_data succeeds exactly
when step is nonzero and max differs from min; when step = 0 or
max = min it raises ZeroDivisionError before any value is written, so a
run produces an error and an empty write trace. -/
theorem C10_cyclic_refresh_total (ct step mn mx : ℚ) :
    ((∃ r, cyclic_refresh ct step mn mx = .ok r) ↔ (step ≠ 0 ∧ mx ≠ mn)) ∧
    (∀ init : ℚ, ∀ n : ℕ, (step = 0 ∨ mx = mn) →
      cyclic_run ct step mn mx init n = .error "ZeroDivisionError") := by
  constructor
  · by_cases hs : step = 0
    · simp [cyclic_refresh, pydiv, hs]
    · by_cases hm : mx = mn
      · have hsub : mx - mn = 0 := by rw [hm]; ring
        simp [cyclic_refresh, pydiv, hs, hsub, hm]
      · have hsub : mx - mn ≠ 0 := sub_ne_zero.mpr hm
        have hspi : (mx - mn) / step ≠ 0 := div_ne_zero hsub hs
        simp [cyclic_refresh, pydiv, hs, hspi, hm]
  · intro init n h
    rcases h with h | h
    · simp [cyclic_run, cyclic_refresh, pydiv, h]
    · have hsub : mx - mn = 0 := by rw [h]; ring
      by_cases hs : step = 0
      · simp [cyclic_run, cyclic_refresh, pydiv, hs]
      · simp [cyclic_run, cyclic_refresh, pydiv, hs, hsub]

/-- Witness for C10: with step = 0 (and the other parameters of main)
the run errors before any write. -/
theorem C10_cyclic_refresh_total_witness :
    cyclic_run 200 0 (-100) 100 0 1 = .error "ZeroDivisionError" :=
  (C10_cyclic_refresh_total 200 0 (-100) 100).2 0 1 (Or.inl rfl)

/-! ### Rounding lemmas for the random generator -/

/-- Rounding to the nearest integer is monotone. -/
theorem round_rat_mono {x y : ℚ} (h : x ≤ y) : round x ≤ round y := by
  rw [round_eq, round_eq]
  exact Int.floor_le_floor (by linarith)

/-- pyround2 maps a bounded interval with hundredth-aligned endpoints
into itself, and its result is a multiple of 1/100. -/
theorem pyround2_mem {lo hi x : ℚ} (klo khi : ℤ)
    (hlo : lo = (klo : ℚ) / 100) (hhi : hi = (khi : ℚ) / 100)
    (h1 : lo ≤ x) (h2 : x ≤ hi) :
    lo ≤ pyround2 x ∧ pyround2 x ≤ hi ∧ ∃ k : ℤ, pyround2 x = (k : ℚ) / 100 := by
  have hl : round ((klo : ℚ)) ≤ round (x * 100) := by
    apply round_rat_mono
    rw [hlo] at h1
    linarith
  have hr : round (x * 100) ≤ round ((khi : ℚ)) := by
    apply round_rat_mono
    rw [hhi] at h2
    linarith
  rw [round_intCast] at hl hr
  refine ⟨?_, ?_, round (x * 100), rfl⟩
  · rw [hlo, pyround2]
    have : (klo : ℚ) ≤ (round (x * 100) : ℚ) := by exact_mod_cast hl
    linarith
  · rw [hhi, pyround2]
    have : (round (x * 100) : ℚ) ≤ (khi : ℚ) := by exact_mod_cast hr
    linarith

/-- Claim C5: for the bounded random generator with min = 15, max = 22
and initial value 18.5 (the TemperatureData task of main), every written
value lies in [15, 22] and is a multiple of 1/100 (rounded to exactly 2
decimal places), and the value written at tick n + 1 is exactly the
value drawn (and rounded) at tick n. -/
theorem C5_random_bounded (u : ℕ → ℚ) (hu : ∀ n, 15 ≤ u n ∧ u n ≤ 22) :
    (∀ n, 15 ≤ random_data u (37 / 2) n ∧ random_data u (37 / 2) n ≤ 22 ∧
      ∃ k : ℤ, random_data u (37 / 2) n = (k : ℚ) / 100) ∧
    (∀ n, random_data u (37 / 2) (n + 1) = pyround2 (u n)) := by
  constructor
  · intro n
    match n with
    | 0 =>
        refine ⟨by norm_num [random_data], by norm_num [random_data], 1850, ?_⟩
        norm_num [random_data]
    | n + 1 =>
        have h := pyround2_mem (x := u n) 1500 2200 (by norm_num) (by norm_num)
          (hu n).1 (hu n).2
        exact ⟨h.1, h.2.1, h.2.2⟩
  · intro n
    rfl

/-- Witness for C5 at the constant draw stream 18. -/
theorem C5_random_bounded_witness :
    15 ≤ random_data (fun _ => 18) (37 / 2) 3 ∧
    random_data (fun _ => 18) (37 / 2) 3 ≤ 22 := by
  have h := C5_random_bounded (fun _ => 18) (by intro n; norm_num)
  exact ⟨(h.1 3).1, (h.1 3).2.1⟩

/-! ## External Feed Adapter (TCXUpdateHandler.on_update, main.py 44-50) -/

/-- One parsed track record: optional latitude and longitude (the
Python dict's .get returns None for a missing key). -/
structure Position where
  latitude : Option ℚ
  longitude : Option ℚ
  deriving DecidableEq

/-- Python truthiness of an optional number: None and 0.0 are falsy. -/
def truthy : Option ℚ → Bool
  | none => false
  | some q => decide (q ≠ 0)

/-- Python rendering of an optional number inside the combined string
(the exact float rendering is abstracted to the rational's rendering;
no claim depends on the string's content). -/
def pystr : Option ℚ → String
  | none => "None"
  | some q => toString q

/-- The three variable handles bound by TCXUpdateHandler at
construction: latitude, longitude and the combined string variable
(GPSLatitude, GPSLongitude and GPSLatitudeAndLongitude in main). -/
inductive GpsVar where
  | latV
  | longV
  | latLongV
  deriving DecidableEq

/-- TCXUpdateHandler.on_update (main.py 44-50): writes the latitude if
truthy, the longitude if truthy, and the combined string if both are
truthy.  The result is the list of writes performed, in order. -/
def on_update (pos : Position) : List (GpsVar × UaVal) :=
  (if truthy pos.latitude
    then [(GpsVar.latV, UaVal.vDouble (pos.latitude.getD 0))] else []) ++
  (if truthy pos.longitude
    then [(GpsVar.longV, UaVal.vDouble (pos.longitude.getD 0))] else []) ++
  (if truthy pos.longitude && truthy pos.latitude
    then [(GpsVar.latLongV,
      UaVal.vString ("lat=" ++ pystr pos.latitude ++ ",long=" ++ pystr pos.longitude))]
    else [])

/-- The three-record track of the spec's Feed Adapter property:
lat 43.1 / long -2.0, lat None / long -2.1, lat 43.2 / long None. -/
def demo_track : List Position :=
  [⟨some (431 / 10), some (-2)⟩, ⟨none, some (-21 / 10)⟩, ⟨some (432 / 10), none⟩]

/-- Claim C4: for every position record, the latitude variable is
written exactly when the latitude is present and non-falsy, the
longitude variable symmetrically, and the combined string exactly when
both are; on the spec's three-record track, the latitude variable is
written for records 1 and 3, the longitude variable for records 1 and
2, and the combined string exactly once, for record 1. -/
theorem C4_feed_adapter :
    (∀ pos : Position,
      ((on_update pos).countP (fun e => e.1 == GpsVar.latV) =
        if truthy pos.latitude then 1 else 0) ∧
      ((on_update pos).countP (fun e => e.1 == GpsVar.longV) =
        if truthy pos.longitude then 1 else 0) ∧
      ((on_update pos).countP (fun e => e.1 == GpsVar.latLongV) =
        if truthy pos.latitude && truthy pos.longitude then 1 else 0)) ∧
    (demo_track.map (fun p => (on_update p).countP (fun e => e.1 == GpsVar.latV)) =
      [1, 0, 1] ∧
     demo_track.map (fun p => (on_update p).countP (fun e => e.1 == GpsVar.longV)) =
      [1, 1, 0] ∧
     demo_track.map (fun p => (on_update p).countP (fun e => e.1 == GpsVar.latLongV)) =
      [1, 0, 0]) := by
  constructor
  · rintro ⟨lat, long⟩
    rcases lat with _ | ql <;> rcases long with _ | qg
    · simp [on_update, truthy]
    · by_cases h2 : qg = 0 <;>
        simp [on_update, truthy, h2, List.countP_append, List.countP_cons]
    · by_cases h1 : ql = 0 <;>
        simp [on_update, truthy, h1, List.countP_append, List.countP_cons]
    · by_cases h1 : ql = 0 <;> by_cases h2 : qg = 0 <;>
        simp [on_update, truthy, h1, h2, List.countP_append, List.countP_cons]
  · refine ⟨?_, ?_, ?_⟩ <;>
      norm_num [demo_track, on_update, truthy, List.countP_append,
        List.countP_cons] <;>
      decide

/-! ## Frame property of the generators -/

/-- The variable store: a total map from variable handles to values;
a write updates exactly the target handle. -/
def write_store {V : Type} [DecidableEq V] (st : V → UaVal) (tgt : V)
    (v : UaVal) : V → UaVal :=
  fun x => if x = tgt then v else st x

/-- The trace of writes of toggle_data bound at construction to the
variable handle data. -/
def toggle_trace {V : Type} (data : V) (init : Bool) (n : ℕ) : V × UaVal :=
  (data, .vBool (toggle_data init n))

/-- The trace of writes of periodic_data bound to data. -/
def periodic_trace {V : Type} (data : V) (init increment : ℚ) (n : ℕ) :
    V × UaVal :=
  (data, .vDouble (periodic_data init increment n))

/-- The trace of writes of random_data bound to data. -/
def random_trace {V : Type} (data : V) (u : ℕ → ℚ) (init : ℚ) (n : ℕ) :
    V × UaVal :=
  (data, .vDouble (random_data u init n))

/-- The trace of writes of cyclic_data bound to data. -/
def cyclic_trace {V : Type} (data : V) (step mn mx init : ℚ) (n : ℕ) :
    V × UaVal :=
  (data, .vDouble ((cyclic_data step mn mx init n).value))

/-- The store after the first n writes of a trace. -/
def run_writes {V : Type} [DecidableEq V] (st : V → UaVal)
    (tr : ℕ → V × UaVal) : ℕ → (V → UaVal)
  | 0 => st
  | n + 1 => write_store (run_writes st tr n) (tr n).1 (tr n).2

/-- A trace all of whose writes target data leaves every other variable
untouched. -/
theorem run_writes_frame {V : Type} [DecidableEq V] (st : V → UaVal)
    (tr : ℕ → V × UaVal) (data v : V) (htr : ∀ n, (tr n).1 = data)
    (hv : v ≠ data) : ∀ n, run_writes st tr n v = st v := by
  intro n
  induction n with
  | zero => rfl
  | succ n ih =>
      have hstep : run_writes st tr (n + 1) v =
          if v = (tr n).1 then (tr n).2 else run_writes st tr n v := rfl
      rw [hstep, htr n, if_neg hv, ih]

/-- Claim C7: each of the four generator tasks only ever writes to the
single variable handle it was bound to at construction: running any
number of its writes leaves every other variable of the store
unchanged. -/
theorem C7_generator_frame {V : Type} [DecidableEq V] (st : V → UaVal)
    (data v : V) (hv : v ≠ data) (init : Bool) (qinit increment : ℚ)
    (u : ℕ → ℚ) (rinit step mn mx cinit : ℚ) (n : ℕ) :
    run_writes st (toggle_trace data init) n v = st v ∧
    run_writes st (periodic_trace data qinit increment) n v = st v ∧
    run_writes st (random_trace data u rinit) n v = st v ∧
    run_writes st (cyclic_trace data step mn mx cinit) n v = st v :=
  ⟨run_writes_frame st _ data v (fun _ => rfl) hv n,
   run_writes_frame st _ data v (fun _ => rfl) hv n,
   run_writes_frame st _ data v (fun _ => rfl) hv n,
   run_writes_frame st _ data v (fun _ => rfl) hv n⟩

/-- Witness for C7 with two concrete handles and two iterations of each
generator with the parameters of main. -/
theorem C7_generator_frame_witness :
    run_writes (fun _ => UaVal.vBool false) (toggle_trace (0 : ℕ) true) 2 1 =
      UaVal.vBool false ∧
    run_writes (fun _ => UaVal.vBool false) (periodic_trace (0 : ℕ) 0 (-2)) 2 1 =
      UaVal.vBool false ∧
    run_writes (fun _ => UaVal.vBool false) (random_trace (0 : ℕ) (fun _ => 18) (37 / 2)) 2 1 =
      UaVal.vBool false ∧
    run_writes (fun _ => UaVal.vBool false) (cyclic_trace (0 : ℕ) (1 / 2) (-100) 100 0) 2 1 =
      UaVal.vBool false :=
  C7_generator_frame (fun _ => UaVal.vBool false) 0 1 (by decide) true 0 (-2)
    (fun _ => 18) (37 / 2) (1 / 2) (-100) 100 0 2

/-! ## Startup calls issued by main (main.py 124-137) -/

/-- The OPC UA datatypes declared for the demo variables. -/
inductive UaType where
  | Boolean
  | Double
  | String
  deriving DecidableEq

/-- One add_variable call: browse name, initial value, declared
datatype. -/
structure VarCreation where
  name : String
  initial : UaVal
  datatype : UaType
  deriving DecidableEq

/-- The variable creation requests issued by main (main.py 124-134), in
program order. -/
def main_variables : List VarCreation :=
  [⟨"BooleanData", .vBool true, .Boolean⟩,
   ⟨"PositiveTrendData", .vDouble 0, .Double⟩,
   ⟨"NegativeTrendData", .vDouble 0, .Double⟩,
   ⟨"TemperatureData", .vDouble (37 / 2), .Double⟩,
   ⟨"HumidityData", .vDouble (301 / 5), .Double⟩,
   ⟨"CyclicData", .vDouble 0, .Double⟩,
   ⟨"MirrorDataOriginal", .vBool true, .Boolean⟩,
   ⟨"MirrorDataCopy", .vBool true, .Boolean⟩,
   ⟨"GPSLatitude", .vString "", .String⟩,
   ⟨"GPSLongitude", .vString "", .String⟩,
   ⟨"GPSLatitudeAndLongitude", .vString "", .String⟩]

/-- The generator tasks started by main (main.py 141-146): which
generator drives which variable. -/
def main_generator_bindings : List (String × String) :=
  [("toggle_data", "BooleanData"),
   ("periodic_data", "PositiveTrendData"),
   ("periodic_data", "NegativeTrendData"),
   ("random_data", "TemperatureData"),
   ("random_data", "HumidityData"),
   ("cyclic_data", "CyclicData")]

/-- Counterexample to claim C8 as stated: main issues creation requests
for eleven variables, not ten (the claim's own breakdown — one boolean
toggle, two double ramps, two bounded-random doubles, one
bounded-triangular double, a boolean pair, three strings — already sums
to eleven). -/
theorem C8_counterexample : main_variables.length ≠ 10 := by
  decide

/-- Claim C8, amended: main issues creation requests for exactly eleven
variables: one boolean toggle, two double ramps, two bounded-random
doubles, one bounded-triangular double, a boolean pair for mirroring,
and three strings for position. -/
theorem C8_variable_creation :
    main_variables.length = 11 ∧
    main_variables.map (fun c => c.name) =
      ["BooleanData", "PositiveTrendData", "NegativeTrendData",
       "TemperatureData", "HumidityData", "CyclicData",
       "MirrorDataOriginal", "MirrorDataCopy",
       "GPSLatitude", "GPSLongitude", "GPSLatitudeAndLongitude"] ∧
    main_variables.map (fun c => c.datatype) =
      [UaType.Boolean, .Double, .Double, .Double, .Double, .Double,
       .Boolean, .Boolean, .String, .String, .String] ∧
    main_variables.countP (fun c => c.datatype == UaType.Boolean) = 3 ∧
    main_variables.countP (fun c => c.datatype == UaType.Double) = 5 ∧
    main_variables.countP (fun c => c.datatype == UaType.String) = 3 := by
  refine ⟨rfl, rfl, rfl, ?_, ?_, ?_⟩ <;> decide

/-- One historize_node_data_change call: target variable, time
retention (None meaning unbounded) and count retention (None meaning
unbounded). -/
structure HistorizeCall where
  node : String
  period : Option ℚ
  count : Option ℕ
  deriving DecidableEq

/-- The historization registrations issued by main (main.py 137): a
single call on CyclicData with period=None and count=10000. -/
def main_historize : List HistorizeCall :=
  [⟨"CyclicData", none, some 10000⟩]

/-- Counterexample to claim C9 as stated: the single historization
registration does not carry an unbounded count cap; its count cap is
10000 (it is the period, the time cap, that is unbounded). -/
theorem C9_counterexample :
    ¬ (main_historize.length = 1 ∧
       ∀ c ∈ main_historize, c.node = "CyclicData" ∧ c.count = none) := by
  decide

/-- Claim C9, amended: main issues exactly one historization
registration, on the variable driven by the bounded triangular wave
generator, with an unbounded time cap (period=None) and a count cap of
10000. -/
theorem C9_historize_amended :
    main_historize.length = 1 ∧
    (∀ c ∈ main_historize,
      c.node = "CyclicData" ∧ c.period = none ∧ c.count = some 10000) ∧
    ("cyclic_data", "CyclicData") ∈ main_generator_bindings := by
  decide

end OpcuaDemo
